import Mathlib

/-!
Shallow embedding of `src/dev-server.js` (vega-providers local development
server). The embedding models the request handlers of the `DevServer` class:

* the dynamic execution route `GET /:provider/:functionName`;
* the provider-file route `GET /dist/:provider/:file`;
* the search redirect route `GET /:provider/search/:query`;
* the introspection endpoints `GET /status` and `GET /providers`.

JavaScript runtime values are modelled by `JSValue` (enough structure to
capture truthiness and callability); Node's `require` machinery — the module
cache, `require.resolve`, cache deletion — is modelled explicitly so that the
cache-bypass behaviour of the server is provable rather than assumed.
Export objects are modelled as association lists in declaration order
(export names are assumed non-numeric, so `Object.values` follows insertion
order). Invocation of a loaded provider function is modelled by a call
oracle supplied as a parameter; a `none` result models a thrown exception.
-/

/-- A JavaScript runtime value, abstracted to what the dispatcher inspects:
truthiness (for `||`) and callability (`typeof func === 'function'`).
Objects and arrays are collapsed to `vObj` (always truthy, never callable);
functions are identified by a numeric id interpreted by the call oracle. -/
inductive JSValue where
  | vUndefined : JSValue
  | vNull : JSValue
  | vBool (b : Bool) : JSValue
  | vNum (n : Int) : JSValue
  | vStr (s : String) : JSValue
  | vObj (id : Nat) : JSValue
  | vFunc (id : Nat) : JSValue
deriving DecidableEq, Repr

/-- JavaScript truthiness: `undefined`, `null`, `false`, `0`, `""` are falsy;
every object, array and function is truthy. -/
def truthy : JSValue → Bool
  | .vUndefined => false
  | .vNull => false
  | .vBool b => b
  | .vNum n => n != 0
  | .vStr s => s != ""
  | .vObj _ => true
  | .vFunc _ => true

/-- JavaScript `a || b`: `a` if truthy, else `b`. -/
def jsOr (a b : JSValue) : JSValue := if truthy a then a else b

/-- A loaded CommonJS module: its export map in declaration order
(the spec calls this an `ExportMap`). -/
abbrev ExportMap := List (String × JSValue)

/-- Property access `module[k]`: the export named `k`, `undefined` if absent. -/
def mget (m : ExportMap) (k : String) : JSValue :=
  ((List.lookup k m).getD .vUndefined)

/-- `Object.values(module)[0]`: the first export value, `undefined` if none. -/
def firstVal (m : ExportMap) : JSValue :=
  match m with
  | [] => .vUndefined
  | e :: _ => e.2

/-- Query-parameter access `req.query.k`: query parameter values are strings,
absent parameters read as `undefined`. -/
def qv (q : String → Option String) (k : String) : JSValue :=
  match q k with
  | some s => .vStr s
  | none => .vUndefined

/-- The filesystem as seen by one request: `existsSync` answers existence
checks, `load` gives the export map produced by executing a file (`none`
models a module whose top-level code throws). -/
structure FS where
  existsSync : String → Bool
  load : String → Option ExportMap

/-- Node's in-memory `require.cache`, keyed by resolved path. -/
abbrev Cache := List (String × ExportMap)

/-- `require.cache[p]` lookup. -/
def cacheLookup (c : Cache) (p : String) : Option ExportMap :=
  List.lookup p c

/-- `delete require.cache[p]`. -/
def eraseCache (c : Cache) (p : String) : Cache :=
  List.filter (fun e => e.1 != p) c

/-- Caching a freshly loaded module under its resolved path. -/
def insertCache (c : Cache) (p : String) (m : ExportMap) : Cache :=
  (p, m) :: c

/-- `require.resolve(p)`: the resolved path when the file exists, `none`
models the thrown `MODULE_NOT_FOUND` error. (The server only resolves paths
that already carry their `.js` extension.) -/
def requireResolve (fs : FS) (p : String) : Option String :=
  if fs.existsSync p then some p else none

/-- `require(p)` for an already-resolved path: consult the cache first; on a
miss, execute the file and cache its exports. `none` models a throw. -/
def nodeRequire (fs : FS) (c : Cache) (p : String) : Option ExportMap × Cache :=
  match cacheLookup c p with
  | some m => (some m, c)
  | none =>
    match fs.load p with
    | some m => (some m, insertCache c p m)
    | none => (none, c)

/-- The server's load sequence
`delete require.cache[require.resolve(filePath)]; require(filePath)`:
resolve (throwing if absent), evict the cache entry, then require. -/
def requireFresh (fs : FS) (c : Cache) (p : String) : Option ExportMap × Cache :=
  match requireResolve fs p with
  | none => (none, c)
  | some rp => nodeRequire fs (eraseCache c rp) rp

/-- `path.join(this.distDir, provider, file)`; `distDir` is the fixed build
output root `path.join(__dirname, "dist")`, abstracted to `"dist"`. -/
def distDir : String := "dist"

/-- Join of the dist root, a provider directory and a file name. -/
def providerPath (provider file : String) : String :=
  distDir ++ "/" ++ provider ++ "/" ++ file

/-- The reserved first path segments the dispatcher refuses to treat as
provider names (dev-server.js line 104). -/
def reservedNames : List String :=
  ["manifest.json", "dist", "build", "status", "providers", "health"]

/-- Export selection of the dispatcher (dev-server.js lines 126-131):
`module[functionName] || module.default || Object.values(module)[0]`,
overridden for `watch` by `module['stream'] || module.default`. -/
def selectFunc (functionName : String) (m : ExportMap) : JSValue :=
  let func0 := jsOr (mget m functionName) (jsOr (mget m "default") (firstVal m))
  if functionName = "watch" then jsOr (mget m "stream") (mget m "default")
  else func0

/-- The mock provider context object built per call (dev-server.js
lines 139-142): a fresh plain object. -/
def providerContext : JSValue := .vObj 0

/-- Argument derivation by function-name convention (dev-server.js
lines 144-168), in source order of the conditional chain. -/
def deriveArgs (functionName : String) (q : String → Option String) :
    List JSValue :=
  if functionName = "posts" then
    [jsOr (qv q "filter") (.vStr ""), jsOr (qv q "page") (.vNum 1),
      providerContext]
  else if functionName = "search" then
    [jsOr (qv q "query") .vUndefined, jsOr (qv q "page") (.vNum 1),
      providerContext]
  else if functionName = "stream" ∨ functionName = "watch" then
    [jsOr (qv q "id") (qv q "link"), jsOr (qv q "type") (.vStr ""),
      providerContext]
  else if functionName = "catalog" then
    [providerContext]
  else if functionName = "meta" then
    [qv q "link", providerContext]
  else if functionName = "episodes" then
    [jsOr (qv q "url") (qv q "link"), providerContext]
  else
    [providerContext]

/-- The HTTP response of the dynamic execution route, by status and body:
`notFound` is 404 with the given `error` string, `ok` is 200 with a JSON
body, `execError` is the catch-all 500 `{error, stack}`, `redirect` is the
302 with a Location. -/
inductive Response where
  | notFound (body : String) : Response
  | ok (v : JSValue) : Response
  | execError : Response
  | redirect (location : String) : Response
deriving DecidableEq, Repr

/-- An observable side effect of a handler: a filesystem existence check, a
`require.resolve`, a module load, or an invocation of a provider function
with an argument list. -/
inductive Access where
  | checkExists (p : String) : Access
  | resolve (p : String) : Access
  | loadModule (p : String) : Access
  | invoke (fid : Nat) (args : List JSValue) : Access
deriving DecidableEq, Repr

/-- The outcome of running the dispatcher: response, require cache after the
request, and the trace of filesystem / module / invocation effects. -/
structure DispatchOut where
  resp : Response
  cache : Cache
  trace : List Access
deriving DecidableEq, Repr

/-- A call oracle interpreting function ids: `call fid args` is the settled
value of invoking function `fid` on `args` (`none` models a rejection or
throw, caught by the route's `catch`). -/
abbrev CallOracle := Nat → List JSValue → Option JSValue

/-- The `try` block of the dynamic execution route (dev-server.js
lines 120-175): fresh-load the module at `filePath`, select the export,
return non-callables as JSON directly, otherwise derive arguments and
invoke; any failure falls to the `catch` (500). -/
def runModule (fs : FS) (call : CallOracle) (c : Cache)
    (functionName : String) (q : String → Option String) (filePath : String)
    (tr : List Access) : DispatchOut :=
  let loadTr :=
    match requireResolve fs filePath with
    | none => [Access.resolve filePath]
    | some rp => [Access.resolve filePath, Access.loadModule rp]
  match requireFresh fs c filePath with
  | (none, c2) => ⟨.execError, c2, tr ++ loadTr⟩
  | (some m, c2) =>
    match selectFunc functionName m with
    | .vFunc fid =>
      let args := deriveArgs functionName q
      match call fid args with
      | some r => ⟨.ok r, c2, tr ++ loadTr ++ [Access.invoke fid args]⟩
      | none => ⟨.execError, c2, tr ++ loadTr ++ [Access.invoke fid args]⟩
    | v => ⟨.ok v, c2, tr ++ loadTr⟩

/-- The dynamic execution route `GET /:provider/:functionName`
(dev-server.js lines 100-176): reject reserved names, locate
`{distDir}/{provider}/{functionName}.js`, fall back to `stream.js` for
`watch` (without re-checking existence), 404 if absent otherwise, then run
the module. -/
def dispatchHandler (fs : FS) (call : CallOracle) (c : Cache)
    (provider functionName : String) (q : String → Option String) :
    DispatchOut :=
  if provider ∈ reservedNames then
    ⟨.notFound "Not found", c, []⟩
  else
    let p1 := providerPath provider (functionName ++ ".js")
    if fs.existsSync p1 then
      runModule fs call c functionName q p1 [Access.checkExists p1]
    else if functionName = "watch" then
      runModule fs call c functionName q (providerPath provider "stream.js")
        [Access.checkExists p1]
    else
      ⟨.notFound ("Function " ++ functionName ++ " not found for " ++ provider),
        c, [Access.checkExists p1]⟩

/-- The HTTP response of the provider-file route `GET /dist/:provider/:file`:
JSON-serialized exports of a loaded module, 500 on a load failure, a raw
file stream, or 404 with the `{error, hint}` body. -/
inductive DistResponse where
  | jsonExports (m : ExportMap) : DistResponse
  | loadError : DistResponse
  | sendFile (p : String) : DistResponse
  | notFoundHint (error hint : String) : DistResponse
deriving DecidableEq, Repr

/-- JavaScript `s.endsWith(suffix)`, computed structurally on the
character lists. -/
def strEndsWith (s suffix : String) : Bool :=
  List.isSuffixOf suffix.data s.data

/-- The path resolution of the provider-file route (dev-server.js
lines 61-68): start from `{distDir}/{provider}/{file}` and, when that does
not exist and lacks the `.js` suffix, try `{file}.js`. -/
def resolvedDistPath (fs : FS) (provider file : String) : String :=
  let fp0 := providerPath provider file
  if !fs.existsSync fp0 && !strEndsWith fp0 ".js" then
    (if fs.existsSync (fp0 ++ ".js") then fp0 ++ ".js" else fp0)
  else fp0

/-- The provider-file route `GET /dist/:provider/:file` (dev-server.js
lines 59-96): resolve the path with the `.js` fallback; an existing `.js`
file is fresh-loaded and its exports returned as JSON (500 if the load
throws); another existing file is streamed raw; otherwise 404 with an
`error` naming `provider/file` and a `hint`. -/
def distFileHandler (fs : FS) (c : Cache) (provider file : String) :
    DistResponse × Cache :=
  let fp := resolvedDistPath fs provider file
  if fs.existsSync fp then
    if strEndsWith fp ".js" then
      match requireFresh fs c fp with
      | (some m, c2) => (.jsonExports m, c2)
      | (none, c2) => (.loadError, c2)
    else (.sendFile fp, c)
  else
    (.notFoundHint ("File not found: " ++ provider ++ "/" ++ file)
      "Make sure to run build first", c)

/-- A character `encodeURIComponent` leaves unescaped: ASCII alphanumerics
and `- _ . ! ~ * ' ( )`. -/
def isUnreservedURI (c : Char) : Bool :=
  (c ≥ 'A' && c ≤ 'Z') || (c ≥ 'a' && c ≤ 'z') || (c ≥ '0' && c ≤ '9') ||
    c ∈ ['-', '_', '.', '!', '~', '*', Char.ofNat 39, '(', ')']

/-- Upper-case hexadecimal digit of a value below 16. -/
def hexDigit (n : Nat) : Char :=
  if n < 10 then Char.ofNat (48 + n) else Char.ofNat (55 + n)

/-- The UTF-8 encoding of a character, as byte values. -/
def utf8Bytes (c : Char) : List Nat :=
  let n := c.toNat
  if n < 128 then [n]
  else if n < 2048 then [192 + n / 64, 128 + n % 64]
  else if n < 65536 then
    [224 + n / 4096, 128 + (n / 64) % 64, 128 + n % 64]
  else
    [240 + n / 262144, 128 + (n / 4096) % 64, 128 + (n / 64) % 64,
      128 + n % 64]

/-- Percent-escape of one byte: `%HH` with upper-case hex. -/
def percentByte (b : Nat) : String :=
  String.mk ['%', hexDigit (b / 16 % 16), hexDigit (b % 16)]

/-- JavaScript `encodeURIComponent`: unreserved characters pass through,
every other character is percent-escaped byte-wise in UTF-8. -/
def encodeURIComponent (s : String) : String :=
  String.join (s.data.map (fun c =>
    if isUnreservedURI c then String.singleton c
    else String.join ((utf8Bytes c).map percentByte)))

/-- The search redirect route `GET /:provider/search/:query` (dev-server.js
lines 179-190): respond with a redirect to
`/{provider}/search?query={encodeURIComponent(query)}`; no filesystem or
module access happens. -/
def searchRedirectHandler (provider query : String) :
    Response × List Access :=
  (.redirect ("/" ++ provider ++ "/search?query=" ++
    encodeURIComponent query), [])

/-- The GET route that a path (split into segments) reaches, in express
registration order: `/manifest.json`, `/dist/:provider/:file`,
`/:provider/:functionName`, `/:provider/search/:query`, `/status`,
`/providers`, `/health`, then the catch-all 404 handler. -/
inductive RouteTarget where
  | manifestRoute : RouteTarget
  | distFileRoute (provider file : String) : RouteTarget
  | dispatchRoute (provider functionName : String) : RouteTarget
  | searchRoute (provider query : String) : RouteTarget
  | statusRoute : RouteTarget
  | providersRoute : RouteTarget
  | healthRoute : RouteTarget
  | fallback404 : RouteTarget
deriving DecidableEq, Repr

/-- Express GET routing of dev-server.js by path segments, in registration
order: an express route pattern matches a fixed number of segments, so the
first registered pattern whose shape and literal segments fit wins. -/
def routeGet (segs : List String) : RouteTarget :=
  match segs with
  | [a] =>
    if a = "manifest.json" then .manifestRoute
    else if a = "status" then .statusRoute
    else if a = "providers" then .providersRoute
    else if a = "health" then .healthRoute
    else .fallback404
  | [p, f] => .dispatchRoute p f
  | [a, b, c] =>
    if a = "dist" then .distFileRoute b c
    else if b = "search" then .searchRoute a c
    else .fallback404
  | _ => .fallback404

/-- `path.join(this.currentDir, "manifest.json")`, abstracted to its
file name. -/
def manifestPath : String := "manifest.json"

/-- `getAvailableProviders` (dev-server.js lines 248-257): empty when the
dist root is missing, else the names of its directory entries that are
directories. `readdir` lists entries as (name, isDirectory) pairs. -/
def getAvailableProviders
    (fs : FS) (readdir : String → List (String × Bool)) : List String :=
  if fs.existsSync distDir then
    ((readdir distDir).filter (fun e => e.2)).map (fun e => e.1)
  else []

/-- `getBuildTime` (dev-server.js lines 259-266): the manifest's mtime in
ISO form when the manifest exists, else `null`. `mtimeISO` gives the
formatted stat result for an existing path. -/
def getBuildTime (fs : FS) (mtimeISO : String → String) : Option String :=
  if fs.existsSync manifestPath then some (mtimeISO manifestPath)
  else none

/-- The JSON body of `GET /status` (dev-server.js lines 209-218). -/
structure StatusBody where
  statusField : String
  port : Nat
  providers : Nat
  providerList : List String
  buildTime : Option String
deriving DecidableEq, Repr

/-- The `GET /status` handler (dev-server.js lines 209-218). -/
def statusHandler (fs : FS) (readdir : String → List (String × Bool))
    (mtimeISO : String → String) (port : Nat) : StatusBody :=
  let providers := getAvailableProviders fs readdir
  ⟨"running", port, providers.length, providers, getBuildTime fs mtimeISO⟩

/-- The `GET /providers` handler (dev-server.js lines 221-224). -/
def providersHandler (fs : FS)
    (readdir : String → List (String × Bool)) : List String :=
  getAvailableProviders fs readdir

/-- Selection as the spec literally words it (modelled from the spec:
"export named exactly functionName; otherwise the module's default export;
otherwise the first export"; for watch "export stream then default") —
a presence-based lookup, for comparison against `selectFunc`. -/
def specSelectClaim (functionName : String) (m : ExportMap) : JSValue :=
  if functionName = "watch" then
    if (List.lookup "stream" m).isSome then mget m "stream"
    else mget m "default"
  else
    if (List.lookup functionName m).isSome then mget m functionName
    else if (List.lookup "default" m).isSome then mget m "default"
    else firstVal m

/-- The selection rule the code actually implements, stated as an ordered
lookup: the first truthy candidate (named export then default export; for
watch only the stream export), else a final fallback taken regardless of
truthiness (the first export in declaration order; for watch the default
export). -/
def specSelectAmended (functionName : String) (m : ExportMap) : JSValue :=
  let cands := if functionName = "watch" then [mget m "stream"]
    else [mget m functionName, mget m "default"]
  let dflt := if functionName = "watch" then mget m "default"
    else firstVal m
  (cands.find? truthy).getD dflt

/-- An export map whose named export is falsy: `catalog` exports the value
`false` and a default export is also present. -/
def mC3 : ExportMap := [("catalog", .vBool false), ("default", .vStr "d")]

/-- A filesystem with no files at all. -/
def fsEmpty : FS := ⟨fun _ => false, fun _ => none⟩

/-- A call oracle under which every invocation throws. -/
def callNone : CallOracle := fun _ _ => none

/-- An empty query string. -/
def qNone : String → Option String := fun _ => none

/-- A filesystem holding exactly `dist/demo/stream.js`, whose module
exports a `stream` function (id 7). -/
def fsStream : FS :=
  ⟨fun p => p = providerPath "demo" "stream.js",
   fun p => if p = providerPath "demo" "stream.js" then
     some [("stream", .vFunc 7)] else none⟩

/-- A call oracle for `fsStream`: function 7 resolves only on the argument
list `("42", "", ctx)`. -/
def callStream : CallOracle := fun fid args =>
  if fid = 7 ∧ args = [.vStr "42", .vStr "", providerContext] then
    some (.vStr "played")
  else none

/-- The query string `?id=42`. -/
def qId : String → Option String :=
  fun k => if k = "id" then some "42" else none

/-- A filesystem holding exactly `dist/demo/posts.js`, whose module exports
a `posts` function (id 1). -/
def fsPosts : FS :=
  ⟨fun p => p = providerPath "demo" "posts.js",
   fun p => if p = providerPath "demo" "posts.js" then
     some [("posts", .vFunc 1)] else none⟩

/-- A call oracle for `fsPosts`: function 1 resolves only on the exact
argument list `("action", "2", ctx)`. -/
def callPosts : CallOracle := fun fid args =>
  if fid = 1 ∧ args = [.vStr "action", .vStr "2", providerContext] then
    some (.vStr "page2")
  else none

/-- The query string `?filter=action&page=2`. -/
def qPosts : String → Option String := fun k =>
  if k = "filter" then some "action"
  else if k = "page" then some "2"
  else none

/-- A filesystem holding exactly `dist/demo/catalog.js`, whose module
exports a non-callable object under `catalog`. -/
def fsCatalog : FS :=
  ⟨fun p => p = providerPath "demo" "catalog.js",
   fun p => if p = providerPath "demo" "catalog.js" then
     some [("catalog", .vObj 5)] else none⟩

/-- A filesystem holding `dist/demo/catalog.js` (a module) and
`dist/demo/app.css` (a non-module file). -/
def fsDist : FS :=
  ⟨fun p => p = providerPath "demo" "catalog.js" ∨
      p = providerPath "demo" "app.css",
   fun p => if p = providerPath "demo" "catalog.js" then
     some [("catalog", .vObj 1)] else none⟩

/-- A directory reader that lists nothing anywhere. -/
def readdirNone : String → List (String × Bool) := fun _ => []

/-- A stat formatter (unused when the manifest is absent). -/
def mtimeNone : String → String := fun _ => ""

/-- Deleting a cache entry makes the very next lookup of that key miss. -/
theorem cacheLookup_erase (c : Cache) (p : String) :
    cacheLookup (eraseCache c p) p = none := by
  induction c with
  | nil => rfl
  | cons e t ih =>
    obtain ⟨k, v⟩ := e
    by_cases h : k = p
    · simpa [eraseCache, h] using ih
    · have hne : ((k, v).1 != p) = true := by simp [h]
      have hpk : (p == k) = false := by
        simp [BEq.beq]
        exact fun hh => h hh.symm
      simp only [eraseCache, List.filter_cons, hne, if_true]
      simp only [cacheLookup, List.lookup, hpk]
      exact ih

/-- The evict-then-require sequence always yields the on-disk module (or a
failure when the file is absent or throws), whatever the incoming cache. -/
theorem requireFresh_fst (fs : FS) (c : Cache) (p : String) :
    (requireFresh fs c p).1 =
      if fs.existsSync p then fs.load p else none := by
  unfold requireFresh requireResolve nodeRequire
  by_cases h : fs.existsSync p = true
  · simp [h, cacheLookup_erase]
    cases fs.load p <;> simp [insertCache]
  · simp [h]

/-- The response of the dispatcher's try-block does not depend on the
incoming require cache or on the accumulated trace. -/
theorem runModule_resp_cache (fs : FS) (call : CallOracle)
    (fn : String) (q : String → Option String) (p : String)
    (c₁ c₂ : Cache) (tr₁ tr₂ : List Access) :
    (runModule fs call c₁ fn q p tr₁).resp =
      (runModule fs call c₂ fn q p tr₂).resp := by
  unfold runModule
  have h₁ := requireFresh_fst fs c₁ p
  have h₂ := requireFresh_fst fs c₂ p
  rcases e₁ : requireFresh fs c₁ p with ⟨mo₁, d₁⟩
  rcases e₂ : requireFresh fs c₂ p with ⟨mo₂, d₂⟩
  rw [e₁] at h₁
  rw [e₂] at h₂
  simp only at h₁ h₂
  have hmo : mo₁ = mo₂ := by rw [h₁, h₂]
  subst hmo
  cases mo₁ with
  | none => simp
  | some m =>
    simp only []
    cases selectFunc fn m <;> simp
    case vFunc fid =>
      cases call fid (deriveArgs fn q) <;> simp

/-- The dispatcher's response does not depend on the require cache left by
earlier requests. -/
theorem dispatch_resp_cache (fs : FS) (call : CallOracle)
    (provider functionName : String) (q : String → Option String)
    (c₁ c₂ : Cache) :
    (dispatchHandler fs call c₁ provider functionName q).resp =
      (dispatchHandler fs call c₂ provider functionName q).resp := by
  unfold dispatchHandler
  by_cases hr : provider ∈ reservedNames
  · simp [hr]
  · simp only [hr, if_false, if_neg hr]
    by_cases he :
        fs.existsSync (providerPath provider (functionName ++ ".js")) = true
    · simp only [he, if_true]
      exact runModule_resp_cache ..
    · simp only [he, Bool.false_eq_true, if_false]
      by_cases hw : functionName = "watch"
      · simp only [hw, if_true]
        exact runModule_resp_cache ..
      · simp [hw]

/-- The provider-file route's response does not depend on the require cache
left by earlier requests. -/
theorem distFile_resp_cache (fs : FS) (provider file : String)
    (c₁ c₂ : Cache) :
    (distFileHandler fs c₁ provider file).1 =
      (distFileHandler fs c₂ provider file).1 := by
  unfold distFileHandler
  by_cases h : fs.existsSync (resolvedDistPath fs provider file) = true
  · simp only [h, if_true]
    by_cases he :
        strEndsWith (resolvedDistPath fs provider file) ".js" = true
    · simp only [he, if_true]
      have h₁ := requireFresh_fst fs c₁ (resolvedDistPath fs provider file)
      have h₂ := requireFresh_fst fs c₂ (resolvedDistPath fs provider file)
      rcases e₁ : requireFresh fs c₁ (resolvedDistPath fs provider file)
        with ⟨mo₁, d₁⟩
      rcases e₂ : requireFresh fs c₂ (resolvedDistPath fs provider file)
        with ⟨mo₂, d₂⟩
      rw [e₁] at h₁
      rw [e₂] at h₂
      simp only at h₁ h₂
      have hmo : mo₁ = mo₂ := by rw [h₁, h₂]
      subst hmo
      cases mo₁ <;> simp
    · simp [he]
  · simp [h]

/-- C1 (amended): for a non-reserved provider whose module file
`{distDir}/{provider}/{functionName}.js` does not exist, the dispatcher
responds NotFound with a JSON body naming both the function and the
provider when `functionName ≠ "watch"`; but when `functionName = "watch"`
and the `stream.js` fallback file is also absent, it responds
ExecutionError (HTTP 500), because the fallback path is substituted
without an existence check and `require.resolve` then throws inside the
try block. -/
theorem C1_missing_file_response (fs : FS) (call : CallOracle) (c : Cache)
    (provider functionName : String) (q : String → Option String)
    (hres : provider ∉ reservedNames)
    (hmiss : fs.existsSync (providerPath provider (functionName ++ ".js")) = false) :
    (functionName ≠ "watch" →
      (dispatchHandler fs call c provider functionName q).resp =
        .notFound ("Function " ++ functionName ++ " not found for " ++ provider)) ∧
    (functionName = "watch" →
      fs.existsSync (providerPath provider "stream.js") = false →
      (dispatchHandler fs call c provider functionName q).resp =
        .execError) := by
  constructor
  · intro hnw
    simp [dispatchHandler, hres, hmiss, hnw]
  · intro hw hs
    subst hw
    rw [show ("watch" ++ ".js" : String) = "watch.js" from rfl] at hmiss
    simp [dispatchHandler, hres, hmiss, runModule, requireFresh,
      requireResolve, hs]

/-- C1 is refuted as stated: on a filesystem where neither
`dist/demo/watch.js` nor the `stream.js` fallback exists, the request
`GET /demo/watch` is answered with ExecutionError (HTTP 500), not
NotFound (404). -/
theorem C1_counterexample :
    fsEmpty.existsSync (providerPath "demo" "watch.js") = false ∧
    fsEmpty.existsSync (providerPath "demo" "stream.js") = false ∧
    (dispatchHandler fsEmpty callNone [] "demo" "watch" qNone).resp =
      .execError := by
  decide

/-- C1 witness: on the empty filesystem, `GET /demo/catalog` is 404 naming
both names, and `GET /demo/watch` is the 500 of the amended claim. -/
theorem C1_missing_file_response_witness :
    (dispatchHandler fsEmpty callNone [] "demo" "catalog" qNone).resp =
      .notFound "Function catalog not found for demo" ∧
    (dispatchHandler fsEmpty callNone [] "demo" "watch" qNone).resp =
      .execError :=
  ⟨(C1_missing_file_response fsEmpty callNone [] "demo" "catalog" qNone
      (by decide) (by decide)).1 (by decide),
   (C1_missing_file_response fsEmpty callNone [] "demo" "watch" qNone
      (by decide) (by decide)).2 rfl (by decide)⟩

/-- C2: for `GET /{provider}/watch` where `watch.js` is absent but
`stream.js` exists and loads, the dispatcher loads `stream.js`, selects
its `stream` export (else its default export), invokes it with
`(query.id or query.link, query.type or "", ctx)` and returns the resolved
value as the JSON body; the trace records exactly that load and that
invocation. -/
theorem C2_watch_stream_fallback (fs : FS) (call : CallOracle) (c : Cache)
    (provider : String) (q : String → Option String)
    (m : ExportMap) (fid : Nat) (r : JSValue)
    (hres : provider ∉ reservedNames)
    (hnw : fs.existsSync (providerPath provider "watch.js") = false)
    (hs : fs.existsSync (providerPath provider "stream.js") = true)
    (hload : fs.load (providerPath provider "stream.js") = some m)
    (hsel : jsOr (mget m "stream") (mget m "default") = .vFunc fid)
    (hcall : call fid [jsOr (qv q "id") (qv q "link"),
      jsOr (qv q "type") (.vStr ""), providerContext] = some r) :
    (dispatchHandler fs call c provider "watch" q).resp = .ok r ∧
    (dispatchHandler fs call c provider "watch" q).trace =
      [Access.checkExists (providerPath provider "watch.js"),
       Access.resolve (providerPath provider "stream.js"),
       Access.loadModule (providerPath provider "stream.js"),
       Access.invoke fid [jsOr (qv q "id") (qv q "link"),
         jsOr (qv q "type") (.vStr ""), providerContext]] := by
  have hjs : ("watch" ++ ".js" : String) = "watch.js" := rfl
  have hargs : deriveArgs "watch" q = [jsOr (qv q "id") (qv q "link"),
      jsOr (qv q "type") (.vStr ""), providerContext] := by
    simp [deriveArgs]
  have hself : selectFunc "watch" m = .vFunc fid := by
    simp [selectFunc, hsel]
  constructor <;>
    simp [dispatchHandler, hres, hjs, hnw, runModule, requireFresh,
      requireResolve, hs, nodeRequire, cacheLookup_erase, hload, hself,
      hargs, hcall]

/-- C2 witness: `GET /demo/watch?id=42` against `dist/demo/stream.js`
exporting `stream` (function 7) returns that function's resolved value. -/
theorem C2_watch_stream_fallback_witness :
    (dispatchHandler fsStream callStream [] "demo" "watch" qId).resp =
      .ok (.vStr "played") :=
  (C2_watch_stream_fallback fsStream callStream [] "demo" qId
    [("stream", .vFunc 7)] 7 (.vStr "played") (by decide) (by decide)
    (by decide) (by decide) (by decide) (by decide)).1

/-- C3 is refuted as stated: in `mC3` the export named `catalog` is present
(with value `false`), so the claimed priority order selects it, yet the
code selects the default export `"d"` — `||` skips falsy values, so
selection is by truthiness, not by presence. -/
theorem C3_counterexample :
    List.lookup "catalog" mC3 = some (JSValue.vBool false) ∧
    specSelectClaim "catalog" mC3 = .vBool false ∧
    selectFunc "catalog" mC3 = .vStr "d" := by
  refine ⟨rfl, by decide, by decide⟩

/-- C3 (amended): the dispatcher's selection equals the ordered lookup that
takes the first TRUTHY candidate — the export named `functionName`, then
the default export (for `watch`: only the `stream` export) — and otherwise
falls back, regardless of truthiness, to the first export in declaration
order (for `watch`: to the default export). -/
theorem C3_truthy_selection (functionName : String) (m : ExportMap) :
    selectFunc functionName m = specSelectAmended functionName m := by
  unfold selectFunc specSelectAmended
  by_cases h : functionName = "watch"
  · simp only [h, if_true]
    cases hs : truthy (mget m "stream") <;>
      simp [jsOr, hs, List.find?]
  · simp only [h, if_false]
    cases h1 : truthy (mget m functionName) <;>
      cases h2 : truthy (mget m "default") <;>
        simp [jsOr, h1, h2, List.find?]

/-- C4: for every reserved provider name, a request reaching the dispatcher
returns 404 `{error: "Not found"}`, leaves the require cache untouched,
and performs no filesystem existence check, module load or invocation
(the access trace is empty). -/
theorem C4_reserved_no_fs (fs : FS) (call : CallOracle) (c : Cache)
    (provider functionName : String) (q : String → Option String)
    (h : provider ∈ reservedNames) :
    dispatchHandler fs call c provider functionName q =
      ⟨.notFound "Not found", c, []⟩ := by
  simp [dispatchHandler, h]

/-- C4 witness: `GET /dist/catalog` reaching the dispatcher is rejected
with no filesystem access. -/
theorem C4_reserved_no_fs_witness :
    dispatchHandler fsEmpty callNone [] "dist" "catalog" qNone =
      ⟨.notFound "Not found", [], []⟩ :=
  C4_reserved_no_fs fsEmpty callNone [] "dist" "catalog" qNone (by decide)

/-- C5: when `GET /{provider}/posts` resolves to a callable export, the
dispatcher invokes it with exactly the three arguments
`(query.filter or "", query.page or 1, ctx)` in that order (witnessed by
the invocation recorded in the trace) and returns the resolved value. -/
theorem C5_posts_arguments (fs : FS) (call : CallOracle) (c : Cache)
    (provider : String) (q : String → Option String)
    (m : ExportMap) (fid : Nat) (r : JSValue)
    (hres : provider ∉ reservedNames)
    (hex : fs.existsSync (providerPath provider "posts.js") = true)
    (hload : fs.load (providerPath provider "posts.js") = some m)
    (hsel : selectFunc "posts" m = .vFunc fid)
    (hcall : call fid [jsOr (qv q "filter") (.vStr ""),
      jsOr (qv q "page") (.vNum 1), providerContext] = some r) :
    (dispatchHandler fs call c provider "posts" q).resp = .ok r ∧
    Access.invoke fid [jsOr (qv q "filter") (.vStr ""),
        jsOr (qv q "page") (.vNum 1), providerContext] ∈
      (dispatchHandler fs call c provider "posts" q).trace := by
  have hjs : ("posts" ++ ".js" : String) = "posts.js" := rfl
  have hargs : deriveArgs "posts" q = [jsOr (qv q "filter") (.vStr ""),
      jsOr (qv q "page") (.vNum 1), providerContext] := by
    simp [deriveArgs]
  constructor <;>
    simp [dispatchHandler, hres, hjs, hex, runModule, requireFresh,
      requireResolve, nodeRequire, cacheLookup_erase, hload, hsel,
      hargs, hcall]

/-- C5 witness: `/demo/posts?filter=action&page=2` invokes the resolved
function with `("action", "2", ctx)` — the call oracle `callPosts` only
resolves on exactly that argument list. -/
theorem C5_posts_arguments_witness :
    (dispatchHandler fsPosts callPosts [] "demo" "posts" qPosts).resp =
      .ok (.vStr "page2") :=
  (C5_posts_arguments fsPosts callPosts [] "demo" qPosts
    [("posts", .vFunc 1)] 1 (.vStr "page2") (by decide) (by decide)
    (by decide) (by decide) (by decide)).1

/-- C6: when the module file exists and the selected export is not
callable, the dispatcher returns that value itself as the JSON body and
never records an invocation in the trace. -/
theorem C6_noncallable_returned (fs : FS) (call : CallOracle) (c : Cache)
    (provider functionName : String) (q : String → Option String)
    (m : ExportMap)
    (hres : provider ∉ reservedNames)
    (hex : fs.existsSync (providerPath provider (functionName ++ ".js")) = true)
    (hload : fs.load (providerPath provider (functionName ++ ".js")) = some m)
    (hnf : ∀ fid, selectFunc functionName m ≠ .vFunc fid) :
    (dispatchHandler fs call c provider functionName q).resp =
      .ok (selectFunc functionName m) ∧
    ∀ fid args, Access.invoke fid args ∉
      (dispatchHandler fs call c provider functionName q).trace := by
  rcases hv : selectFunc functionName m with _ | _ | b | n | s | oid | fid
  case vFunc => exact absurd hv (hnf fid)
  all_goals constructor <;>
    simp [dispatchHandler, hres, hex, runModule, requireFresh,
      requireResolve, nodeRequire, cacheLookup_erase, hload, hv]

/-- C6 witness: `/demo/catalog` where `catalog.js` exports a non-function
object returns that object unchanged. -/
theorem C6_noncallable_returned_witness :
    (dispatchHandler fsCatalog callNone [] "demo" "catalog" qNone).resp =
      .ok (.vObj 5) :=
  (C6_noncallable_returned fsCatalog callNone [] "demo" "catalog" qNone
    [("catalog", .vObj 5)] (by decide) (by decide) (by decide)
    (fun fid h => nomatch (show JSValue.vObj 5 = JSValue.vFunc fid from h))).1

/-- C7: module loading is never memoized across requests — both the
dispatcher's and the provider-file route's responses are identical under
any two require-cache states (the only cross-request state), and the
evict-then-require sequence always returns exactly the module content on
disk at request time. -/
theorem C7_no_memoization (fs : FS) (call : CallOracle)
    (provider functionName file p : String) (q : String → Option String)
    (c₁ c₂ : Cache) :
    (dispatchHandler fs call c₁ provider functionName q).resp =
      (dispatchHandler fs call c₂ provider functionName q).resp ∧
    (distFileHandler fs c₁ provider file).1 =
      (distFileHandler fs c₂ provider file).1 ∧
    (requireFresh fs c₁ p).1 =
      (if fs.existsSync p then fs.load p else none) :=
  ⟨dispatch_resp_cache fs call provider functionName q c₁ c₂,
   distFile_resp_cache fs provider file c₁ c₂,
   requireFresh_fst fs c₁ p⟩

/-- C8: on the provider-file route, a path that resolves (after the `.js`
auto-suffix fallback) to an existing `.js` module whose load succeeds is
answered with the JSON-serialized export map; an existing non-`.js` file
is streamed raw; a path resolving to nothing is answered 404 with a body
carrying both an `error` naming `provider/file` and a `hint`. -/
theorem C8_dist_file_route (fs : FS) (c : Cache) (provider file : String) :
    (strEndsWith (resolvedDistPath fs provider file) ".js" = true →
      fs.existsSync (resolvedDistPath fs provider file) = true →
      ∀ m, fs.load (resolvedDistPath fs provider file) = some m →
      (distFileHandler fs c provider file).1 = .jsonExports m) ∧
    (fs.existsSync (resolvedDistPath fs provider file) = true →
      strEndsWith (resolvedDistPath fs provider file) ".js" = false →
      (distFileHandler fs c provider file).1 =
        .sendFile (resolvedDistPath fs provider file)) ∧
    (fs.existsSync (resolvedDistPath fs provider file) = false →
      (distFileHandler fs c provider file).1 =
        .notFoundHint ("File not found: " ++ provider ++ "/" ++ file)
          "Make sure to run build first") := by
  refine ⟨?_, ?_, ?_⟩
  · intro hjs hex m hload
    simp [distFileHandler, hex, hjs, requireFresh, requireResolve,
      nodeRequire, cacheLookup_erase, hload]
  · intro hex hnjs
    simp [distFileHandler, hex, hnjs]
  · intro hnex
    simp [distFileHandler, hnex]

/-- C8 witness: `GET /dist/demo/catalog` answers the exports of
`catalog.js` via the auto-suffix fallback, `GET /dist/demo/app.css`
streams the raw file, and `GET /dist/demo/missing` is the 404 with error
and hint. -/
theorem C8_dist_file_route_witness :
    (distFileHandler fsDist [] "demo" "catalog").1 =
      .jsonExports [("catalog", .vObj 1)] ∧
    (distFileHandler fsDist [] "demo" "app.css").1 =
      .sendFile (providerPath "demo" "app.css") ∧
    (distFileHandler fsDist [] "demo" "missing").1 =
      .notFoundHint "File not found: demo/missing"
        "Make sure to run build first" :=
  ⟨(C8_dist_file_route fsDist [] "demo" "catalog").1 (by decide)
      (by decide) [("catalog", .vObj 1)] (by decide),
   (C8_dist_file_route fsDist [] "demo" "app.css").2.1 (by decide)
      (by decide),
   (C8_dist_file_route fsDist [] "demo" "missing").2.2 (by decide)⟩

/-- C9: a three-segment path `/{provider}/search/{query}` with a
non-reserved provider routes to the dedicated search route (not the
dispatcher), whose response is a redirect to
`/{provider}/search?query={query}` with the query URL-encoded, and which
performs no filesystem or module access (its trace is empty). -/
theorem C9_search_redirect (provider query : String)
    (h : provider ∉ reservedNames) :
    routeGet [provider, "search", query] = .searchRoute provider query ∧
    searchRedirectHandler provider query =
      (.redirect ("/" ++ provider ++ "/search?query=" ++
        encodeURIComponent query), []) := by
  have hd : provider ≠ "dist" := by
    intro hh
    exact h (by rw [hh]; decide)
  exact ⟨by simp [routeGet, hd], rfl⟩

/-- C9 witness: `GET /demo/search/a b` redirects to
`/demo/search?query=a%20b`. -/
theorem C9_search_redirect_witness :
    routeGet ["demo", "search", "a b"] = .searchRoute "demo" "a b" ∧
    searchRedirectHandler "demo" "a b" =
      (.redirect "/demo/search?query=a%20b", []) :=
  C9_search_redirect "demo" "a b" (by decide)

/-- C10: `/status` and `/providers` are total when build outputs are
absent — a missing dist root yields the empty provider list and a zero
count, every listed provider name comes from a directory entry (plain
files are never counted), and a missing manifest yields a null
`buildTime`. -/
theorem C10_introspection_total (fs : FS)
    (readdir : String → List (String × Bool))
    (mtimeISO : String → String) (port : Nat) :
    (fs.existsSync distDir = false →
      providersHandler fs readdir = [] ∧
      (statusHandler fs readdir mtimeISO port).providers = 0 ∧
      (statusHandler fs readdir mtimeISO port).providerList = []) ∧
    (∀ n, n ∈ getAvailableProviders fs readdir →
      ∃ e, e ∈ readdir distDir ∧ e.1 = n ∧ e.2 = true) ∧
    (fs.existsSync manifestPath = false →
      (statusHandler fs readdir mtimeISO port).buildTime = none) := by
  refine ⟨?_, ?_, ?_⟩
  · intro h
    simp [providersHandler, statusHandler, getAvailableProviders, h]
  · intro n hn
    by_cases h : fs.existsSync distDir = true
    · simp only [getAvailableProviders, h, if_true, List.mem_map,
        List.mem_filter] at hn
      obtain ⟨e, ⟨hmem, hdir⟩, hname⟩ := hn
      exact ⟨e, hmem, hname, hdir⟩
    · simp [getAvailableProviders, h] at hn
  · intro h
    simp [statusHandler, getBuildTime, h]

/-- C10 witness: with no dist directory and no manifest, `/providers` is
the empty array and `/status` reports zero providers, an empty list and a
null build time. -/
theorem C10_introspection_total_witness :
    providersHandler fsEmpty readdirNone = [] ∧
    (statusHandler fsEmpty readdirNone mtimeNone 7860).providers = 0 ∧
    (statusHandler fsEmpty readdirNone mtimeNone 7860).providerList = [] ∧
    (statusHandler fsEmpty readdirNone mtimeNone 7860).buildTime = none :=
  have h := C10_introspection_total fsEmpty readdirNone mtimeNone 7860
  have h1 := h.1 (by decide)
  ⟨h1.1, h1.2.1, h1.2.2, h.2.2 (by decide)⟩
